import Mathlib

/-!
Shallow embedding of the plugin-orchestrated processing engine of the
`wqutilities` repository: `src/wqutilities/processing_engine/plugin_base.py`,
`plugin_loader.py` and `processing_engine_base.py`.

Modelling conventions: timestamps (`datetime.now()`) are natural numbers
passed in explicitly; Python `int` counters are `Int`; Python dicts are
association lists with insert-or-overwrite semantics; a raised Python
exception is an explicit `PyError` value threaded through `Except`.  The
abstract methods `collect_data` and `send_data`, implemented by concrete
plugin subclasses, are supplied as behaviour functions when the engine
runs; the thread-pool fan-out of the engine is linearised (each submitted
future runs exactly once, and each future together with its result
retrieval touches only the plugin it was submitted for).
-/

namespace WQUtilities

/-- Python exceptions raised by the embedded code. -/
inductive PyError where
  | attributeError (msg : String)
  | exc (msg : String)
deriving BEq, DecidableEq, Repr

/-- `PluginStatus` enum, plugin_base.py lines 13-17. -/
inductive PluginStatus where
  | enabled
  | disabled
  | error
deriving BEq, DecidableEq, Repr

/-- `PluginConfig` dataclass, plugin_base.py lines 20-32.  The free-form
`config` mapping is modelled with string values. -/
structure PluginConfig where
  name : String := ""
  module : String := ""
  enabled : Bool := true
  config : List (String × String) := []
  retry_count : Int := 3
  timeout : Int := 30
deriving BEq, DecidableEq, Repr

/-- `BaseDataItem` dataclass, plugin_base.py lines 34-84.  Metadata values
are modelled as strings. -/
structure BaseDataItem where
  item_id : String
  item_type : String
  source : String
  created_at : Nat
  updated_at : Nat
  metadata : List (String × String)
  tags : List String
deriving BEq, DecidableEq, Repr

/-- Assignment `d[k] = v` on a Python dict modelled as an association list:
an existing key keeps its position and receives the new value, a new key is
appended at the end. -/
def dictInsert {α : Type} (d : List (String × α)) (k : String) (v : α) :
    List (String × α) :=
  if d.any (fun kv => kv.1 == k) then
    d.map (fun kv => if kv.1 == k then (k, v) else kv)
  else d ++ [(k, v)]

/-- `BaseDataItem.add_metadata`, plugin_base.py lines 61-64. `datetime.now()`
is the explicit argument `now`. -/
def BaseDataItem.add_metadata (it : BaseDataItem) (key value : String)
    (now : Nat) : BaseDataItem :=
  { it with metadata := dictInsert it.metadata key value, updated_at := now }

/-- `BaseDataItem.add_tag`, plugin_base.py lines 66-70. -/
def BaseDataItem.add_tag (it : BaseDataItem) (tag : String) (now : Nat) :
    BaseDataItem :=
  if tag ∈ it.tags then it
  else { it with tags := it.tags ++ [tag], updated_at := now }

/-- `BaseDataItem.remove_tag`, plugin_base.py lines 72-76. `list.remove`
deletes the first occurrence, which is `List.erase`. -/
def BaseDataItem.remove_tag (it : BaseDataItem) (tag : String) (now : Nat) :
    BaseDataItem :=
  if tag ∈ it.tags then
    { it with tags := it.tags.erase tag, updated_at := now }
  else it

/-- One mutation of a `BaseDataItem`, tagged with the wall-clock time at
which it is performed. -/
inductive ItemOp where
  | addMetadata (key value : String) (now : Nat)
  | addTag (tag : String) (now : Nat)
  | removeTag (tag : String) (now : Nat)
deriving BEq, DecidableEq, Repr

/-- Apply a single `ItemOp` to a data item. -/
def applyOp (it : BaseDataItem) : ItemOp → BaseDataItem
  | .addMetadata key value now => it.add_metadata key value now
  | .addTag tag now => it.add_tag tag now
  | .removeTag tag now => it.remove_tag tag now

/-- The wall-clock time at which an `ItemOp` is performed. -/
def opTime : ItemOp → Nat
  | .addMetadata _ _ now => now
  | .addTag _ now => now
  | .removeTag _ now => now

/-- Apply a sequence of `ItemOp`s in order. -/
def applyOps (it : BaseDataItem) (ops : List ItemOp) : BaseDataItem :=
  ops.foldl applyOp it

/-- Mutable state of a `BaseCollectorPlugin` (plugin_base.py lines 87-130).
Its `__init__` (lines 90-95) defines exactly the attributes `plugin_config`,
`status`, `logger`, `last_run` and `error_count`; the logger is omitted
here.  The abstract `collect_data` of a concrete subclass is supplied as a
behaviour function when the engine runs. -/
structure BaseCollectorPlugin where
  plugin_config : PluginConfig
  status : PluginStatus
  last_run : Option Nat
  error_count : Int
deriving BEq, DecidableEq, Repr

/-- `BaseCollectorPlugin.__init__`, plugin_base.py lines 90-95. -/
def BaseCollectorPlugin.mkInit (config : PluginConfig) : BaseCollectorPlugin :=
  { plugin_config := config
    status := if config.enabled then PluginStatus.enabled else PluginStatus.disabled
    last_run := none
    error_count := 0 }

/-- `BaseCollectorPlugin.validate_config`, plugin_base.py lines 108-111:
`if len(self.plugin_config.name) and len(self.plugin_config.module)` is
truthy exactly when both lengths are non-zero. -/
def BaseCollectorPlugin.validate_config (p : BaseCollectorPlugin) : Bool :=
  if p.plugin_config.name.length != 0 && p.plugin_config.module.length != 0 then
    true
  else
    false

/-- `BaseCollectorPlugin.get_plugin_name`, plugin_base.py lines 113-114. -/
def BaseCollectorPlugin.get_plugin_name (p : BaseCollectorPlugin) : String :=
  p.plugin_config.module

/-- `BaseCollectorPlugin.is_enabled`, plugin_base.py lines 116-118. -/
def BaseCollectorPlugin.is_enabled (p : BaseCollectorPlugin) : Bool :=
  p.status == PluginStatus.enabled

/-- `BaseCollectorPlugin.set_status`, plugin_base.py lines 120-123. -/
def BaseCollectorPlugin.set_status (p : BaseCollectorPlugin)
    (s : PluginStatus) : BaseCollectorPlugin :=
  { p with status := s }

/-- `BaseCollectorPlugin.handle_error`, plugin_base.py lines 125-130:
increment `error_count`, and once it reaches `retry_count` transition the
status to ERROR. -/
def BaseCollectorPlugin.handle_error (p : BaseCollectorPlugin) :
    BaseCollectorPlugin :=
  let q := { p with error_count := p.error_count + 1 }
  if q.error_count ≥ q.plugin_config.retry_count then
    q.set_status PluginStatus.error
  else q

/-- Attribute access `plugin.config` on a collector plugin, as performed by
`collect_all_data` in `future.result(timeout=self.collector_plugins[plugin_name].config.timeout)`
(processing_engine_base.py line 125).  `BaseCollectorPlugin.__init__`
defines `plugin_config` but no attribute named `config`, and no subclass in
the repository defines one, so the access raises `AttributeError`. -/
def BaseCollectorPlugin.configAttr (_p : BaseCollectorPlugin) :
    Except PyError PluginConfig :=
  .error (.attributeError "BaseCollectorPlugin object has no attribute config")

/-- Mutable state of a `BaseOutputPlugin` (plugin_base.py lines 133-187).
Its `__init__` (lines 136-141) defines `plugin_config`, `status`, `logger`,
`sent_count` and `error_count`; the logger is omitted.  The abstract
`get_supported_data_types` of a concrete subclass is modelled by the field
`supported_data_types`; the abstract `send_data` is supplied as a behaviour
function when the engine runs. -/
structure BaseOutputPlugin where
  plugin_config : PluginConfig
  status : PluginStatus
  sent_count : Int
  error_count : Int
  supported_data_types : List String
deriving BEq, DecidableEq, Repr

/-- `BaseOutputPlugin.is_enabled`, plugin_base.py lines 168-170. -/
def BaseOutputPlugin.is_enabled (p : BaseOutputPlugin) : Bool :=
  p.status == PluginStatus.enabled

/-- `BaseOutputPlugin.should_send`, plugin_base.py lines 172-175: the
default implementation checks the item type against
`get_supported_data_types()`. -/
def BaseOutputPlugin.should_send (p : BaseOutputPlugin)
    (data_item : BaseDataItem) : Bool :=
  p.supported_data_types.contains data_item.item_type

/-- `BaseOutputPlugin.set_status`, plugin_base.py lines 177-180. -/
def BaseOutputPlugin.set_status (p : BaseOutputPlugin) (s : PluginStatus) :
    BaseOutputPlugin :=
  { p with status := s }

/-- `BaseOutputPlugin.handle_error`, plugin_base.py lines 182-187: same
policy as the collector version. -/
def BaseOutputPlugin.handle_error (p : BaseOutputPlugin) : BaseOutputPlugin :=
  let q := { p with error_count := p.error_count + 1 }
  if q.error_count ≥ q.plugin_config.retry_count then
    q.set_status PluginStatus.error
  else q

/-- Attribute access `plugin.config` on an output plugin, as performed by
`distribute_data` in `future.result(timeout=self.output_plugins[plugin_name].config.timeout)`
(processing_engine_base.py line 171).  `BaseOutputPlugin.__init__` defines
`plugin_config` but no attribute named `config`, so the access raises
`AttributeError`. -/
def BaseOutputPlugin.configAttr (_p : BaseOutputPlugin) :
    Except PyError PluginConfig :=
  .error (.attributeError "BaseOutputPlugin object has no attribute config")

/-- Behaviour of the abstract `collect_data` implemented by a concrete
collector subclass: a list of produced items, or a raised exception. -/
abbrev CollectBehaviour :=
  BaseCollectorPlugin → Except PyError (List BaseDataItem)

/-- Behaviour of the abstract `send_data` implemented by a concrete output
subclass: a delivery-success boolean, or a raised exception. -/
abbrev SendBehaviour :=
  BaseOutputPlugin → BaseDataItem → Except PyError Bool

/-- `GenericProcessingEngine._collect_from_plugin`, processing_engine_base.py
lines 133-140: stamp `last_run`, call `collect_data`; a raised exception is
caught, routed to the plugin's `handle_error`, and an empty list is
returned. -/
def collectFromPlugin (cd : CollectBehaviour) (now : Nat)
    (p : BaseCollectorPlugin) : BaseCollectorPlugin × List BaseDataItem :=
  let q := { p with last_run := some now }
  match cd q with
  | .ok items => (q, items)
  | .error _e => (q.handle_error, [])

/-- One plugin's passage through `collect_all_data` (processing_engine_base.py
lines 110-131).  An enabled plugin is submitted to the pool and its
`_collect_from_plugin` future always runs; the retrieval loop then evaluates
`self.collector_plugins[plugin_name].config.timeout` (line 125), which
raises `AttributeError` (see `BaseCollectorPlugin.configAttr`); the handler
on line 128-129 routes that exception to the plugin's `handle_error`, and
`all_data.extend` is never reached for this plugin.  A plugin that is not
enabled is not submitted and is left untouched. -/
def collectStep (cd : CollectBehaviour) (now : Nat)
    (p : BaseCollectorPlugin) : BaseCollectorPlugin × List BaseDataItem :=
  if p.is_enabled then
    let r := collectFromPlugin cd now p
    match r.1.configAttr with
    | .ok _cfg => (r.1, r.2)
    | .error _e => (r.1.handle_error, [])
  else (p, [])

/-- `GenericProcessingEngine.collect_all_data`, processing_engine_base.py
lines 110-131, linearised: each plugin's future and its retrieval touch only
that plugin, so the phase is the per-plugin `collectStep` mapped over the
registered collectors, `all_data` being the concatenation of the per-plugin
contributions (here in registration order, one of the possible
`as_completed` orders). -/
def collect_all_data (cd : CollectBehaviour) (now : Nat)
    (ps : List BaseCollectorPlugin) :
    List BaseCollectorPlugin × List BaseDataItem :=
  (ps.map (fun p => (collectStep cd now p).1),
   (ps.map (fun p => (collectStep cd now p).2)).flatten)

/-- One collection cycle as far as collector-plugin state is concerned. -/
def runCycle (cd : CollectBehaviour) (now : Nat)
    (ps : List BaseCollectorPlugin) : List BaseCollectorPlugin :=
  (collect_all_data cd now ps).1

/-- Application of the registered processors in registration order,
processing_engine_base.py lines 150-151. -/
def applyProcessors (processors : List (BaseDataItem → BaseDataItem))
    (it : BaseDataItem) : BaseDataItem :=
  processors.foldl (fun x f => f x) it

/-- `GenericProcessingEngine.process_data`, processing_engine_base.py lines
142-156: for each item, if every registered filter accepts it, apply the
processors in order, append the result to `processed_data` and store it in
the `data_items` dict under its `item_id`.  Returns the updated index and
the `processed_data` list. -/
def process_data (filters : List (BaseDataItem → Bool))
    (processors : List (BaseDataItem → BaseDataItem))
    (index : List (String × BaseDataItem)) :
    List BaseDataItem → List (String × BaseDataItem) × List BaseDataItem
  | [] => (index, [])
  | it :: rest =>
    if filters.all (fun f => f it) then
      let it2 := applyProcessors processors it
      let r := process_data filters processors
        (dictInsert index it2.item_id it2) rest
      (r.1, it2 :: r.2)
    else process_data filters processors index rest

/-- The `(item, plugin)` pairs submitted to the pool by `distribute_data`
(processing_engine_base.py lines 163-167): items outer loop, registered
output plugins inner loop, a pair submitted exactly when the plugin is
enabled and `should_send` accepts the item.  Each pair carries the dict key
(`plugin_name`) used later by the retrieval loop. -/
def submitPairs (items : List BaseDataItem) (ps : List BaseOutputPlugin) :
    List (BaseDataItem × String) :=
  items.flatMap (fun it =>
    (ps.filter (fun p => p.is_enabled && p.should_send it)).map
      (fun p => (it, p.plugin_config.name)))

/-- `GenericProcessingEngine._send_via_plugin`, processing_engine_base.py
lines 178-184: call `send_data`; a raised exception is caught, routed to
the plugin's `handle_error`, and `False` is returned. -/
def sendViaPlugin (sd : SendBehaviour) (p : BaseOutputPlugin)
    (it : BaseDataItem) : BaseOutputPlugin × Bool :=
  match sd p it with
  | .ok b => (p, b)
  | .error _e => (p.handle_error, false)

/-- Execution of one submitted future: `_send_via_plugin` runs on the plugin
object whose dict key is `pair.2`, mutating it in place. -/
def execPair (sd : SendBehaviour) (ps : List BaseOutputPlugin)
    (pair : BaseDataItem × String) : List BaseOutputPlugin × Bool :=
  match ps with
  | [] => ([], false)
  | p :: rest =>
    if p.plugin_config.name == pair.2 then
      let r := sendViaPlugin sd p pair.1
      (r.1 :: rest, r.2)
    else
      let r := execPair sd rest pair
      (p :: r.1, r.2)

/-- Execution of all submitted futures in submission order, recording each
future's boolean result together with its `plugin_name` key. -/
def execPhase (sd : SendBehaviour) :
    List BaseOutputPlugin → List (BaseDataItem × String) →
    List BaseOutputPlugin × List (String × Bool)
  | ps, [] => (ps, [])
  | ps, pair :: rest =>
    let r := execPair sd ps pair
    let w := execPhase sd r.1 rest
    (w.1, (pair.2, r.2) :: w.2)

/-- One step of the result loop of `distribute_data`
(processing_engine_base.py lines 169-176): evaluating
`self.output_plugins[plugin_name].config.timeout` raises `AttributeError`
(see `BaseOutputPlugin.configAttr`), and the handler on lines 175-176
routes it to that plugin's `handle_error`; the success branch, which would
increment `sent_count`, is unreachable. -/
def retrieveStep (ps : List BaseOutputPlugin) (plugin_name : String)
    (success : Bool) : List BaseOutputPlugin :=
  ps.map (fun p =>
    if p.plugin_config.name == plugin_name then
      match p.configAttr with
      | .ok _cfg =>
        if success then { p with sent_count := p.sent_count + 1 } else p
      | .error _e => p.handle_error
    else p)

/-- `GenericProcessingEngine.distribute_data`, processing_engine_base.py
lines 158-176, linearised: submit all pairs (snapshot of statuses at
submission time), execute every future once in order, then run the
retrieval loop over the recorded results in order. -/
def distribute_data (sd : SendBehaviour) (items : List BaseDataItem)
    (ps : List BaseOutputPlugin) : List BaseOutputPlugin :=
  let pairs := submitPairs items ps
  let e := execPhase sd ps pairs
  e.2.foldl (fun st r => retrieveStep st r.1 r.2) e.1

/-- The sequence of `send_data` invocations performed by `distribute_data`,
as `(plugin_name, item_id)` pairs: `execPhase` runs `_send_via_plugin`
exactly once for each submitted pair, in submission order, and
`_send_via_plugin` calls `send_data` exactly once. -/
def sendTrace (items : List BaseDataItem) (ps : List BaseOutputPlugin) :
    List (String × String) :=
  (submitPairs items ps).map (fun pair => (pair.2, pair.1.item_id))

/-- A candidate source file in a plugin directory: its file name, whether
`importlib.util.spec_from_file_location` produced a spec with a loader, and
the outcome of `spec.loader.exec_module` followed by the class scan - the
plugin class names found, or the exception raised while executing the
module. -/
structure PluginFile where
  filename : String
  has_loader : Bool
  load_result : Except PyError (List String)
deriving Repr

/-- `PluginLoader._load_plugin`, plugin_loader.py lines 105-111: without a
spec or loader it returns an empty list; otherwise it executes the module
(which may raise - there is no handler) and scans it for plugin classes. -/
def loadPlugin (f : PluginFile) : Except PyError (List String) :=
  if f.has_loader then f.load_result else .ok []

/-- Python `str.endswith`, modelled on the character list. -/
def strEndsWith (s post : String) : Bool :=
  post.data.isSuffixOf s.data

/-- Python `str.startswith`, modelled on the character list. -/
def strStartsWith (s pre : String) : Bool :=
  pre.data.isPrefixOf s.data

/-- The file filter of `discover_plugins`, plugin_loader.py line 98: files
ending in `.py` that do not start with `__`. -/
def candidateFile (f : PluginFile) : Bool :=
  strEndsWith f.filename ".py" && !(strStartsWith f.filename "__")

/-- `PluginLoader.discover_plugins`, plugin_loader.py lines 96-103: iterate
over the directory listing, consider files ending in `.py` that do not
start with `__`, load each and extend `self.plugins` with its classes.
There is no exception handler, so an exception raised while loading one
file propagates out of `discover_plugins`: the first component of the
result is the content of `self.plugins` (the classes accumulated before the
abort), the second the propagated exception, if any. -/
def discover_plugins : List PluginFile → List String × Option PyError
  | [] => ([], none)
  | f :: rest =>
    if candidateFile f then
      match loadPlugin f with
      | .ok found =>
        let r := discover_plugins rest
        (found ++ r.1, r.2)
      | .error e => ([], some e)
    else discover_plugins rest

/-- The attributes available on the active `PluginLoader` class
(plugin_loader.py lines 20-122): the methods it defines.  The earlier
variant that provided the static methods `find_all_config_directories`,
`load_plugins_from_directory` and a `load_plugin_configs` taking a
directory-list argument sits inside a triple-quoted string (lines 124-266)
and is never executed. -/
def pluginLoaderClassAttrs : List String :=
  ["load_plugin_configs", "discover_plugins", "_load_plugin",
   "_find_plugins_in_module", "get_plugins"]

/-- Attribute lookup `PluginLoader.<attr>` on the active class. -/
def pluginLoaderGetAttr (attr : String) : Except PyError Unit :=
  if attr ∈ pluginLoaderClassAttrs then .ok ()
  else .error (.attributeError
    ("type object PluginLoader has no attribute " ++ attr))

/-- Engine state visible to the claims: the registered plugin dicts and the
`data_items` index. -/
structure GenericProcessingEngine where
  collector_plugins : List (String × BaseCollectorPlugin)
  output_plugins : List (String × BaseOutputPlugin)
  data_items : List (String × BaseDataItem)
deriving Repr

/-- `GenericProcessingEngine.__init__`, processing_engine_base.py lines
17-42: after creating the empty plugin dicts and resolving the directory
defaults, line 36 evaluates `PluginLoader.find_all_config_directories(...)`.
That attribute lookup on the active `PluginLoader` class raises
`AttributeError`, so the constructor propagates it before
`auto_load_plugins` (line 42) - the only site that registers plugins - is
reached.  The first component of the result is the trace of plugin names
registered during construction. -/
def GenericProcessingEngine.engineInit
    (plugin_dirs : Option (List (String × String)))
    (config_dirs : Option (List String)) :
    List String × Except PyError GenericProcessingEngine :=
  let _resolved_plugin_dirs := plugin_dirs.getD
    [("collectors", "./plugins/collectors"), ("outputs", "./plugins/outputs")]
  let _additional_config_dirs := config_dirs.getD ["./configs"]
  match pluginLoaderGetAttr "find_all_config_directories" with
  | .error e => ([], .error e)
  | .ok _u =>
    -- Dead branch: were the lookup to succeed, line 41 would call
    -- `PluginLoader.load_plugin_configs(self.config_dirs)`, binding the
    -- directory list to `self`, whose first use of `self.config_dirs`
    -- would raise AttributeError as well.
    ([], .error (.attributeError "list object has no attribute config_dirs"))

/-- `AdvisoryProcessingEngine.__init__`, processing_engine_base.py lines
235-260: textually the same startup sequence, failing at line 254 on the
same `PluginLoader.find_all_config_directories` lookup. -/
def AdvisoryProcessingEngine.engineInit
    (plugin_dirs : Option (List (String × String)))
    (config_dirs : Option (List String)) :
    List String × Except PyError GenericProcessingEngine :=
  let _resolved_plugin_dirs := plugin_dirs.getD
    [("collectors", "./plugins/collectors"), ("outputs", "./plugins/outputs")]
  let _additional_config_dirs := config_dirs.getD ["./configs"]
  match pluginLoaderGetAttr "find_all_config_directories" with
  | .error e => ([], .error e)
  | .ok _u =>
    ([], .error (.attributeError "list object has no attribute config_dirs"))

/-! ### Concrete inputs used by the concrete evaluation theorems -/

/-- Demonstration data item produced by the `alpha` collector. -/
def itemA : BaseDataItem :=
  { item_id := "a1", item_type := "sample", source := "alpha",
    created_at := 0, updated_at := 0, metadata := [], tags := [] }

/-- Configuration of the succeeding demonstration collector. -/
def alphaConfig : PluginConfig := { name := "alpha", module := "alpha_mod" }

/-- Configuration of the raising demonstration collector. -/
def betaConfig : PluginConfig := { name := "beta", module := "beta_mod" }

/-- Freshly constructed collector `alpha` (enabled, error_count 0). -/
def alphaCollector : BaseCollectorPlugin := BaseCollectorPlugin.mkInit alphaConfig

/-- Freshly constructed collector `beta` (enabled, error_count 0). -/
def betaCollector : BaseCollectorPlugin := BaseCollectorPlugin.mkInit betaConfig

/-- Behaviour in which collector `alpha` succeeds with one item and every
other collector raises. -/
def demoCollect : CollectBehaviour := fun p =>
  if p.plugin_config.name == "alpha" then .ok [itemA]
  else .error (.exc "collector beta raised")

/-- Freshly constructed enabled output plugin accepting item type `sample`. -/
def outPluginA : BaseOutputPlugin :=
  { plugin_config := { name := "outa", module := "outa_mod" }
    status := PluginStatus.enabled
    sent_count := 0
    error_count := 0
    supported_data_types := ["sample"] }

/-- Behaviour in which `send_data` always succeeds, returning True. -/
def demoSend : SendBehaviour := fun _p _it => .ok true

/-- Collector with `retry_count = 3`, freshly constructed. -/
def gammaCollector : BaseCollectorPlugin :=
  BaseCollectorPlugin.mkInit
    { name := "gamma", module := "gamma_mod", retry_count := 3 }

/-- Behaviour in which every collector raises. -/
def failingCollect : CollectBehaviour := fun _p => .error (.exc "source down")

/-- Collector whose configured name is non-empty but whose module is empty. -/
def nameOnlyCollector : BaseCollectorPlugin :=
  BaseCollectorPlugin.mkInit { name := "alpha", module := "" }

/-- A plugin file whose module raises while being executed. -/
def badFile : PluginFile :=
  { filename := "bad.py", has_loader := true,
    load_result := .error (.exc "SyntaxError in bad.py") }

/-- A plugin file that loads one plugin class. -/
def goodFile : PluginFile :=
  { filename := "good.py", has_loader := true,
    load_result := .ok ["GoodPlugin"] }

/-- A second well-formed plugin file, listed after the bad one. -/
def lateFile : PluginFile :=
  { filename := "late.py", has_loader := true,
    load_result := .ok ["LatePlugin"] }

/-- Data item used by the C9 witness: one tag, empty metadata. -/
def witnessItem : BaseDataItem :=
  { item_id := "w1", item_type := "sample", source := "demo",
    created_at := 0, updated_at := 0, metadata := [], tags := ["t"] }

/-- Operation sequence used by the C9 witness. -/
def witnessOps : List ItemOp :=
  [.addMetadata "k" "v" 1, .addTag "u" 2, .removeTag "t" 3]

/-! ### Helper lemmas -/

/-- A string has non-zero length exactly when it is not the empty string. -/
theorem string_length_ne_zero_iff (s : String) : s.length ≠ 0 ↔ s ≠ "" := by
  constructor
  · intro h hs
    exact h (by rw [hs]; rfl)
  · intro h hlen
    apply h
    cases s with
    | mk data =>
      cases data with
      | nil => rfl
      | cons a l => exact absurd hlen (by simp [String.length])

/-! ### Claims -/

/-- C1: the claim states that `collect_all_data` returns the concatenation
of the successful plugins' item lists and increments each failing plugin's
`error_count` by exactly 1.  The code violates this: the retrieval loop
accesses `self.collector_plugins[plugin_name].config.timeout` while the
plugin class defines only `plugin_config`, so for every submitted plugin
the retrieval raises `AttributeError` and is routed to `handle_error`.
Evaluation at the failing input (`alpha` succeeds with one item, `beta`
raises): the call returns no items at all, the successful plugin ends with
`error_count = 1`, and the failing plugin with `error_count = 2`. -/
theorem c1_code_evaluation :
    (collect_all_data demoCollect 5 [alphaCollector, betaCollector]).2 = [] ∧
    ((collect_all_data demoCollect 5 [alphaCollector, betaCollector]).1.map
      (fun p => p.error_count)) = [1, 2] ∧
    ((collect_all_data demoCollect 5 [alphaCollector, betaCollector]).1.map
      (fun p => p.status)) = [PluginStatus.enabled, PluginStatus.enabled] := by
  decide

/-- C4: the claim states that a successful `send_data` increments the
plugin's `sent_count` by 1.  The code violates this: the result-retrieval
loop accesses `self.output_plugins[plugin_name].config.timeout`, which
raises `AttributeError` (the plugin class defines only `plugin_config`),
so the success branch incrementing `sent_count` is unreachable and the
exception is routed to `handle_error`.  Evaluation at the failing input
(one enabled plugin accepting the item, `send_data` returning True):
`send_data` is invoked and succeeds, yet `sent_count` stays 0 and
`error_count` becomes 1. -/
theorem c4_code_evaluation :
    sendViaPlugin demoSend outPluginA itemA = (outPluginA, true) ∧
    (distribute_data demoSend [itemA] [outPluginA]).map
      (fun p => p.sent_count) = [0] ∧
    (distribute_data demoSend [itemA] [outPluginA]).map
      (fun p => p.error_count) = [1] := by
  decide

/-- C5: for every plugin (collector or output), `handle_error` increments
`error_count` by exactly 1 and the resulting status is ERROR exactly when
the incremented counter reaches `retry_count`, the status being unchanged
otherwise; in particular a plugin already in ERROR stays in ERROR under
every further `handle_error` call, since both branches of the status
equation then yield ERROR. -/
theorem c5_handle_error (c : BaseCollectorPlugin) (o : BaseOutputPlugin) :
    c.handle_error.error_count = c.error_count + 1 ∧
    c.handle_error.status =
      (if c.error_count + 1 ≥ c.plugin_config.retry_count then
        PluginStatus.error
      else c.status) ∧
    o.handle_error.error_count = o.error_count + 1 ∧
    o.handle_error.status =
      (if o.error_count + 1 ≥ o.plugin_config.retry_count then
        PluginStatus.error
      else o.status) := by
  refine ⟨?_, ?_, ?_, ?_⟩ <;>
    simp only [BaseCollectorPlugin.handle_error, BaseOutputPlugin.handle_error,
      BaseCollectorPlugin.set_status, BaseOutputPlugin.set_status] <;>
    split <;> rfl

/-- C6: the claim states that a collector with `retry_count = K` failing
every cycle reaches ERROR after the K-th failure and is excluded from the
following cycle.  The exclusion of non-ENABLED plugins holds, but the
demotion point is wrong in the code: each failing cycle increments
`error_count` twice (once when `collect_data` raises inside
`_collect_from_plugin`, once when the retrieval loop's access to the
missing `config` attribute raises `AttributeError`), so with K = 3 the
plugin is already in ERROR after its 2nd failing cycle, with
`error_count = 4`, and the 3rd cycle leaves it untouched. -/
theorem c6_code_evaluation :
    (runCycle failingCollect 0 [gammaCollector]).map
      (fun p => (p.error_count, p.status)) = [(2, PluginStatus.enabled)] ∧
    (runCycle failingCollect 1 (runCycle failingCollect 0 [gammaCollector])).map
      (fun p => (p.error_count, p.status)) = [(4, PluginStatus.error)] ∧
    runCycle failingCollect 2
        (runCycle failingCollect 1 (runCycle failingCollect 0 [gammaCollector])) =
      runCycle failingCollect 1 (runCycle failingCollect 0 [gammaCollector]) := by
  decide

/-- C7 counterexample: the claim states that `validate_config` returns true
whenever the configured name is non-empty, regardless of the other fields.
A collector whose config has name `alpha` and empty module refutes it:
its name is non-empty, yet `validate_config` returns false. -/
theorem c7_counterexample :
    nameOnlyCollector.plugin_config.name ≠ "" ∧
    nameOnlyCollector.validate_config = false := by
  decide

/-- C7 amended: `validate_config` returns true if and only if BOTH the
configured name and the configured module are non-empty
(plugin_base.py line 109). -/
theorem c7_validate_config (c : BaseCollectorPlugin) :
    c.validate_config = true ↔
      (c.plugin_config.name ≠ "" ∧ c.plugin_config.module ≠ "") := by
  unfold BaseCollectorPlugin.validate_config
  rw [← string_length_ne_zero_iff, ← string_length_ne_zero_iff]
  constructor
  · intro h
    by_contra hc
    rw [not_and_or, not_not, not_not] at hc
    rcases hc with hc | hc <;> simp [hc] at h
  · intro h
    simp [h.1, h.2]

/-- C10: constructing either engine raises before any plugin is registered:
line 36 (and line 254 for the advisory engine) evaluates
`PluginLoader.find_all_config_directories`, an attribute the active
`PluginLoader` class does not have, so the constructor propagates an
`AttributeError` with an empty registration trace, for every argument
combination. -/
theorem c10_engine_init_raises
    (pd : Option (List (String × String))) (cd : Option (List String))
    (pd2 : Option (List (String × String))) (cd2 : Option (List String)) :
    GenericProcessingEngine.engineInit pd cd =
      ([], .error (.attributeError
        "type object PluginLoader has no attribute find_all_config_directories")) ∧
    AdvisoryProcessingEngine.engineInit pd2 cd2 =
      ([], .error (.attributeError
        "type object PluginLoader has no attribute find_all_config_directories")) := by
  constructor <;> rfl

/-- C2: `process_data` returns exactly the processor-image (processors
applied in registration order) of the items accepted by every registered
filter, in input order, and the `data_items` index is updated by inserting
exactly those processed items under their `item_id`; an item rejected by
any filter contributes neither to the returned list nor to the index
update. -/
theorem c2_process_data (filters : List (BaseDataItem → Bool))
    (processors : List (BaseDataItem → BaseDataItem))
    (index : List (String × BaseDataItem)) (items : List BaseDataItem) :
    process_data filters processors index items =
      (((items.filter (fun it => filters.all (fun f => f it))).map
          (applyProcessors processors)).foldl
        (fun d it => dictInsert d it.item_id it) index,
       (items.filter (fun it => filters.all (fun f => f it))).map
         (applyProcessors processors)) := by
  induction items generalizing index with
  | nil => rfl
  | cons it rest ih =>
    by_cases h : filters.all (fun f => f it) = true
    · simp [process_data, h, ih, List.filter_cons]
    · simp [process_data, h, ih, List.filter_cons]

/-- Every entry of `sendTrace` carries the id of one of the items passed to
`distribute_data`. -/
theorem sendTrace_mem_item_id (items : List BaseDataItem)
    (ps : List BaseOutputPlugin) (x : String × String)
    (hx : x ∈ sendTrace items ps) :
    x.2 ∈ items.map (fun it => it.item_id) := by
  simp only [sendTrace, submitPairs, List.mem_map, List.mem_flatMap] at hx
  rcases hx with ⟨pair, ⟨it, hit, p, _hp, hpe⟩, hxp⟩
  subst hpe
  subst hxp
  exact List.mem_map.mpr ⟨it, hit, rfl⟩

/-- Count of a fixed pair in a plugin list mapped to `(name, j)` pairs. -/
theorem count_pairMap (l : List BaseOutputPlugin) (n i j : String) :
    (l.map (fun p => (p.plugin_config.name, j))).count (n, i) =
      if i = j then (l.map (fun p => p.plugin_config.name)).count n
      else 0 := by
  induction l with
  | nil => simp
  | cons p rest ih =>
    by_cases hij : i = j
    · subst hij
      by_cases hn : p.plugin_config.name = n
      · simp [List.count_cons, ih, hn]
      · simp [List.count_cons, ih, hn]
    · have hne : ¬((n, i) = (p.plugin_config.name, j)) := fun h =>
        hij (congrArg Prod.snd h)
      simp [List.count_cons, ih, hij, hne]

/-- Count of a plugin's name among the names of a filtered plugin list with
pairwise-distinct names: 1 when the filter keeps the plugin, 0 otherwise. -/
theorem count_filter_names (ps : List BaseOutputPlugin)
    (g : BaseOutputPlugin → Bool) (P : BaseOutputPlugin)
    (hnames : (ps.map (fun p => p.plugin_config.name)).Nodup)
    (hP : P ∈ ps) :
    ((ps.filter g).map (fun p => p.plugin_config.name)).count
        P.plugin_config.name = if g P then 1 else 0 := by
  induction ps with
  | nil => cases hP
  | cons p rest ih =>
    simp only [List.map_cons, List.nodup_cons] at hnames
    rcases List.mem_cons.mp hP with rfl | hPrest
    · have hrest0 : ((rest.filter g).map
          (fun p => p.plugin_config.name)).count P.plugin_config.name = 0 := by
        rw [List.count_eq_zero]
        intro hmem
        rcases List.mem_map.mp hmem with ⟨q, hq, hqe⟩
        exact hnames.1 (hqe ▸ List.mem_map_of_mem _ (List.mem_of_mem_filter hq))
      by_cases hg : g P = true
      · simp [List.filter_cons, hg, List.count_cons, hrest0]
      · simp [List.filter_cons, hg, hrest0]
    · have hne : P.plugin_config.name ≠ p.plugin_config.name := by
        intro he
        exact hnames.1 (he ▸ List.mem_map_of_mem _ hPrest)
      by_cases hg : g p = true
      · simp [List.filter_cons, hg, List.count_cons, hne,
          ih hnames.2 hPrest]
      · simp [List.filter_cons, hg, ih hnames.2 hPrest]

/-- C3: for every output plugin P and item I handed to `distribute_data`
(plugin names pairwise distinct, as they key a dict; item ids pairwise
distinct), `send_data` is invoked exactly once for the pair (P, I) when P
is ENABLED and `should_send(P, I)` holds, and never invoked for (P, I)
otherwise. -/
theorem c3_distribute_send_trace (items : List BaseDataItem)
    (ps : List BaseOutputPlugin) (P : BaseOutputPlugin) (I : BaseDataItem)
    (hids : (items.map (fun it => it.item_id)).Nodup)
    (hnames : (ps.map (fun p => p.plugin_config.name)).Nodup)
    (hI : I ∈ items) (hP : P ∈ ps) :
    (sendTrace items ps).count (P.plugin_config.name, I.item_id) =
      if P.is_enabled && P.should_send I then 1 else 0 := by
  induction items with
  | nil => cases hI
  | cons it rest ih =>
    simp only [List.map_cons, List.nodup_cons] at hids
    have htrace : sendTrace (it :: rest) ps =
        ((ps.filter (fun p => p.is_enabled && p.should_send it)).map
          (fun p => (p.plugin_config.name, it.item_id))) ++
          sendTrace rest ps := by
      simp [sendTrace, submitPairs, List.map_map, Function.comp]
    rw [htrace, List.count_append]
    rcases List.mem_cons.mp hI with rfl | hIrest
    · have hrest : (sendTrace rest ps).count
          (P.plugin_config.name, I.item_id) = 0 := by
        rw [List.count_eq_zero]
        intro hmem
        exact hids.1 (sendTrace_mem_item_id rest ps _ hmem)
      rw [hrest, count_pairMap, if_pos rfl,
        count_filter_names ps _ P hnames hP]
      simp
    · have hne : I.item_id ≠ it.item_id := by
        intro he
        exact hids.1 (he ▸ List.mem_map_of_mem _ hIrest)
      rw [count_pairMap, if_neg hne, ih hids.2 hIrest]
      simp

/-- Witness for C3: one enabled plugin accepting the item type, one item -
`send_data` is invoked exactly once for the pair. -/
theorem c3_witness :
    (([itemA].map (fun it => it.item_id)).Nodup ∧
     ([outPluginA].map (fun p => p.plugin_config.name)).Nodup ∧
     itemA ∈ [itemA] ∧ outPluginA ∈ [outPluginA]) ∧
    (sendTrace [itemA] [outPluginA]).count
        (outPluginA.plugin_config.name, itemA.item_id) =
      (if outPluginA.is_enabled && outPluginA.should_send itemA then 1
       else 0) :=
  ⟨⟨by decide, by decide, List.mem_singleton.mpr rfl,
    List.mem_singleton.mpr rfl⟩,
   c3_distribute_send_trace [itemA] [outPluginA] outPluginA itemA
     (by decide) (by decide) (List.mem_singleton.mpr rfl)
     (List.mem_singleton.mpr rfl)⟩

/-- C8 counterexample: the claim states that a file raising during loading
is skipped and discovery continues with the remaining files.  With the
directory listing `[badFile, goodFile]`, `discover_plugins` propagates the
exception of `badFile` and `GoodPlugin` is never loaded. -/
theorem c8_counterexample :
    (discover_plugins [badFile, goodFile]).2 =
      some (.exc "SyntaxError in bad.py") ∧
    "GoodPlugin" ∉ (discover_plugins [badFile, goodFile]).1 :=
  ⟨rfl, fun h => absurd h (List.not_mem_nil _)⟩

/-- C8 amended: an exception raised while loading one candidate file
propagates out of `discover_plugins` and aborts discovery at that file:
the plugins of earlier files are retained in `self.plugins`, and no later
file is loaded. -/
theorem c8_discover_aborts (pre post : List PluginFile) (f : PluginFile)
    (e : PyError)
    (hpre : (discover_plugins pre).2 = none)
    (hcand : candidateFile f = true)
    (hload : loadPlugin f = .error e) :
    discover_plugins (pre ++ f :: post) =
      ((discover_plugins pre).1, some e) := by
  induction pre with
  | nil => simp [discover_plugins, hcand, hload]
  | cons g rest ih =>
    by_cases hg : candidateFile g = true
    · cases hl : loadPlugin g with
      | ok found =>
        have h2 : (discover_plugins rest).2 = none := by
          simpa [discover_plugins, hg, hl] using hpre
        simp [discover_plugins, hg, hl, ih h2]
      | error e2 =>
        exact absurd hpre (by simp [discover_plugins, hg, hl])
    · have h2 : (discover_plugins rest).2 = none := by
        simpa [discover_plugins, hg] using hpre
      simp [discover_plugins, hg, ih h2]

/-- Witness for C8 amended: a good file, then a raising file, then another
good file - discovery keeps the first file's plugin, propagates the
exception and never loads the last file. -/
theorem c8_witness :
    ((discover_plugins [goodFile]).2 = none ∧
     candidateFile badFile = true ∧
     loadPlugin badFile = .error (.exc "SyntaxError in bad.py")) ∧
    discover_plugins ([goodFile] ++ badFile :: [lateFile]) =
      ((discover_plugins [goodFile]).1, some (.exc "SyntaxError in bad.py")) :=
  ⟨⟨rfl, rfl, rfl⟩,
   c8_discover_aborts [goodFile] [lateFile] badFile _ rfl rfl rfl⟩

/-- Every `ItemOp` leaves `created_at` unchanged. -/
theorem applyOp_created_at (x : BaseDataItem) (op : ItemOp) :
    (applyOp x op).created_at = x.created_at := by
  cases op with
  | addMetadata key value now => rfl
  | addTag tag now =>
    by_cases h : tag ∈ x.tags <;>
      simp [applyOp, BaseDataItem.add_tag, h]
  | removeTag tag now =>
    by_cases h : tag ∈ x.tags <;>
      simp [applyOp, BaseDataItem.remove_tag, h]

/-- Every `ItemOp` either stamps `updated_at` with its time or leaves the
item entirely unchanged. -/
theorem applyOp_updated_at (x : BaseDataItem) (op : ItemOp) :
    (applyOp x op).updated_at = opTime op ∨ applyOp x op = x := by
  cases op with
  | addMetadata key value now => exact Or.inl rfl
  | addTag tag now =>
    by_cases h : tag ∈ x.tags
    · exact Or.inr (by simp [applyOp, BaseDataItem.add_tag, h])
    · exact Or.inl (by simp [applyOp, BaseDataItem.add_tag, h, opTime])
  | removeTag tag now =>
    by_cases h : tag ∈ x.tags
    · exact Or.inl (by simp [applyOp, BaseDataItem.remove_tag, h, opTime])
    · exact Or.inr (by simp [applyOp, BaseDataItem.remove_tag, h])

/-- Every `ItemOp` preserves duplicate-freeness of the tag sequence. -/
theorem applyOp_tags_nodup (x : BaseDataItem) (op : ItemOp)
    (h : x.tags.Nodup) : (applyOp x op).tags.Nodup := by
  cases op with
  | addMetadata key value now => exact h
  | addTag tag now =>
    by_cases ht : tag ∈ x.tags
    · simpa [applyOp, BaseDataItem.add_tag, ht] using h
    · simp only [applyOp, BaseDataItem.add_tag, ht, if_neg]
      simp [List.nodup_append, h, ht]
  | removeTag tag now =>
    by_cases ht : tag ∈ x.tags
    · simp only [applyOp, BaseDataItem.remove_tag, ht, if_pos]
      exact h.erase tag
    · simpa [applyOp, BaseDataItem.remove_tag, ht] using h

/-- Along any operation sequence whose stamps are at or after the creation
time, `created_at` is unchanged and `updated_at` never falls below it. -/
theorem applyOps_invariant (ops : List ItemOp) (it : BaseDataItem)
    (h1 : it.created_at ≤ it.updated_at)
    (h3 : ∀ o ∈ ops, it.created_at ≤ opTime o) :
    (applyOps it ops).created_at = it.created_at ∧
      (applyOps it ops).created_at ≤ (applyOps it ops).updated_at := by
  induction ops generalizing it with
  | nil => exact ⟨rfl, h1⟩
  | cons op rest ih =>
    have hc := applyOp_created_at it op
    have hstep : (applyOp it op).created_at ≤ (applyOp it op).updated_at := by
      rcases applyOp_updated_at it op with hu | hu
      · rw [hc, hu]; exact h3 op (List.mem_cons_self op rest)
      · rw [hu]; exact h1
    have h3r : ∀ o ∈ rest, (applyOp it op).created_at ≤ opTime o := by
      rw [hc]; exact fun o ho => h3 o (List.mem_cons_of_mem _ ho)
    have hrest := ih (applyOp it op) hstep h3r
    have heq : applyOps it (op :: rest) = applyOps (applyOp it op) rest := rfl
    exact ⟨by rw [heq, hrest.1, hc], by rw [heq]; exact hrest.2⟩

/-- Any operation sequence preserves duplicate-freeness of the tags. -/
theorem applyOps_tags_nodup (ops : List ItemOp) (it : BaseDataItem)
    (h : it.tags.Nodup) : (applyOps it ops).tags.Nodup := by
  induction ops generalizing it with
  | nil => exact h
  | cons op rest ih => exact ih (applyOp it op) (applyOp_tags_nodup it op h)

/-- An operation that actually changes the metadata mapping or the tag
sequence stamps `updated_at` with its time. -/
theorem applyOp_change_updated (x : BaseDataItem) (op : ItemOp)
    (h : (applyOp x op).metadata ≠ x.metadata ∨
      (applyOp x op).tags ≠ x.tags) :
    (applyOp x op).updated_at = opTime op := by
  rcases applyOp_updated_at x op with hu | hu
  · exact hu
  · rw [hu] at h
    rcases h with h | h <;> exact absurd rfl h

/-- Adding an already-present tag leaves the item unchanged. -/
theorem add_tag_mem_unchanged (x : BaseDataItem) (tag : String) (now : Nat)
    (h : tag ∈ x.tags) : x.add_tag tag now = x := by
  simp [BaseDataItem.add_tag, h]

/-- C9: for a data item constructed with `updated_at >= created_at` and
duplicate-free tags, any sequence of `add_metadata`, `add_tag` and
`remove_tag` operations (each performed at a time no earlier than
`created_at`, as wall-clock time only moves forward past creation)
preserves `updated_at >= created_at` and keeps the tags duplicate-free;
an operation that actually changes the metadata mapping or the tag
sequence stamps `updated_at` with its time; and `add_tag` of an
already-present tag leaves the item unchanged. -/
theorem c9_data_item_invariants (it : BaseDataItem) (ops : List ItemOp)
    (x : BaseDataItem) (op : ItemOp) (tag : String) (now : Nat)
    (h1 : it.created_at ≤ it.updated_at)
    (h2 : it.tags.Nodup)
    (h3 : ∀ o ∈ ops, it.created_at ≤ opTime o)
    (h4 : tag ∈ x.tags)
    (h5 : (applyOp x op).metadata ≠ x.metadata ∨
      (applyOp x op).tags ≠ x.tags) :
    (applyOps it ops).created_at = it.created_at ∧
    (applyOps it ops).created_at ≤ (applyOps it ops).updated_at ∧
    (applyOps it ops).tags.Nodup ∧
    (applyOp x op).updated_at = opTime op ∧
    x.add_tag tag now = x :=
  ⟨(applyOps_invariant ops it h1 h3).1, (applyOps_invariant ops it h1 h3).2,
   applyOps_tags_nodup ops it h2, applyOp_change_updated x op h5,
   add_tag_mem_unchanged x tag now h4⟩

/-- Witness for C9: a concrete item with one tag, run through a metadata
addition, a tag addition and a tag removal. -/
theorem c9_witness :
    (witnessItem.created_at ≤ witnessItem.updated_at ∧
     witnessItem.tags.Nodup ∧
     (∀ o ∈ witnessOps, witnessItem.created_at ≤ opTime o) ∧
     "t" ∈ witnessItem.tags ∧
     ((applyOp witnessItem (.addTag "w" 4)).metadata ≠ witnessItem.metadata ∨
      (applyOp witnessItem (.addTag "w" 4)).tags ≠ witnessItem.tags)) ∧
    ((applyOps witnessItem witnessOps).created_at = witnessItem.created_at ∧
     (applyOps witnessItem witnessOps).created_at ≤
       (applyOps witnessItem witnessOps).updated_at ∧
     (applyOps witnessItem witnessOps).tags.Nodup ∧
     (applyOp witnessItem (.addTag "w" 4)).updated_at =
       opTime (.addTag "w" 4) ∧
     witnessItem.add_tag "t" 9 = witnessItem) :=
  ⟨⟨by decide, by decide,
    by simp [witnessOps, witnessItem, opTime],
    by decide, by decide⟩,
   c9_data_item_invariants witnessItem witnessOps witnessItem
     (.addTag "w" 4) "t" 9 (by decide) (by decide)
     (by simp [witnessOps, witnessItem, opTime]) (by decide) (by decide)⟩

end WQUtilities
